import Mathlib

/-!
Verification development for the payment-transaction core of the
blossombackend repository: the payment service
(`payments-api/services/paymentService.js`), its validators
(`payment-api/utils/validator.js`), the idempotency middleware and the
`POST /payments` route (`payment-api/middleware/validation.js`,
concatenated module), and the database schema
(`payment-api/db/setup.js`).

The JavaScript code is embedded shallowly: JS numbers are modelled by
`JsNum` (NaN, the two infinities, or a finite value represented as a
rational), thrown `Error(message)` values by `JsResult.thrown message`,
the MySQL store by explicit `DB` values, and the transaction protocol
(`beginTransaction` / `commit` / `rollback`) by operating on a working
copy of the committed store and returning either the committed working
copy or the original store.  The gateway simulation
(`processPaymentGateway`, which uses `Math.random`) and the generated
identifiers (`PAY_...`, `CAN_...`) are injected through environment
records.  The idempotency service (`idempotencyService.js`) is not part
of the source tree; its four operations are modelled from the spec and
carry a `Modelled from the spec:` note.
-/

namespace Blossom

/-- Structural prefix test on character lists (used to model JavaScript
`String.prototype.includes`). -/
def isPre : List Char → List Char → Bool
  | [], _ => true
  | _ :: _, [] => false
  | a :: as, b :: bs => a == b && isPre as bs

/-- Structural substring occurrence test on character lists. -/
def hasSub (pat : List Char) : List Char → Bool
  | [] => isPre pat []
  | c :: rest => isPre pat (c :: rest) || hasSub pat rest

/-- JavaScript `msg.includes(pat)`. -/
def includes (s pat : String) : Bool := hasSub pat.data s.data

/-- JavaScript `String.prototype.toLowerCase` (ASCII suffices for the
payment-method enumeration). -/
def strLower (s : String) : String := ⟨s.data.map Char.toLower⟩

/-- A JavaScript number: NaN, one of the infinities, or a finite value.
Finite values are modelled exactly as rationals; every decimal literal in
the source is representable. -/
inductive JsNum where
  | nan
  | posInf
  | negInf
  | num (q : ℚ)
deriving DecidableEq, Repr

/-- JavaScript falsiness of a number (`!x`): NaN and 0 are falsy. -/
def jsFalsy : JsNum → Bool
  | .nan => true
  | .num q => decide (q = 0)
  | _ => false

/-- String rendering of a (validated, hence integral) id, used to build
the Redis lock key `payment_lock:` ++ orderId. -/
def jsIntToString : JsNum → String
  | .num q => if q.den == 1 then toString q.num else toString q.num ++ "/" ++ toString q.den
  | .nan => "NaN"
  | .posInf => "Infinity"
  | .negInf => "-Infinity"

/-- validator.js `isValidUserId`: `Number.isInteger(id) && id > 0`
(null/undefined rejected). -/
def isValidUserId : Option JsNum → Bool
  | some (.num q) => q.den == 1 && decide (0 < q)
  | _ => false

/-- validator.js `isValidAmount`: a finite number with
`num > 0 && num <= 10000000 && num >= 0.01` (NaN, infinities and
null/undefined rejected). -/
def isValidAmount : Option JsNum → Bool
  | some (.num q) => decide (0 < q) && decide (q ≤ 10000000) && decide (mkRat 1 100 ≤ q)
  | _ => false

/-- validator.js: the closed payment-method enumeration. -/
def validMethods : List String :=
  ["card", "credit_card", "debit_card", "bank_transfer", "mobile", "paypal"]

/-- validator.js `isValidPaymentMethod`: member of the closed enumeration
after lower-casing; empty or missing strings rejected. -/
def isValidPaymentMethod : Option String → Bool
  | none => false
  | some m => !(m == "") && validMethods.contains (strLower m)

/-- Character-class template for the UUID v4 pattern used by
`isValidIdempotencyKey`. -/
def uuidTemplate : List Char := "xxxxxxxx-xxxx-4xxx-yxxx-xxxxxxxxxxxx".data

/-- Hexadecimal digit, case-insensitive (the regex carries the `i` flag). -/
def isHexDig (c : Char) : Bool := c.isDigit || "abcdefABCDEF".data.contains c

/-- One position of the UUID v4 pattern. -/
def matchU : Char → Char → Bool
  | 'x', c => isHexDig c
  | '4', c => c == '4'
  | 'y', c => "89abAB".data.contains c
  | '-', c => c == '-'
  | _, _ => false

/-- validator.js `isValidIdempotencyKey`: the UUID v4 regex
`[0-9a-f]x8-[0-9a-f]x4-4[0-9a-f]x3-[89ab][0-9a-f]x3-[0-9a-f]x12`
with the case-insensitive flag. -/
def isValidIdempotencyKey : Option String → Bool
  | none => false
  | some k => !(k == "") && k.data.length == 36
      && (List.zipWith matchU uuidTemplate k.data).all id

/-- The `payments.status` enumeration of the schema. -/
inductive PayStatus where
  | pending
  | completed
  | failed
  | cancelled
deriving DecidableEq, Repr

/-- The string stored in the `status` column / sent in JSON responses. -/
def statusString : PayStatus → String
  | .pending => "pending"
  | .completed => "completed"
  | .failed => "failed"
  | .cancelled => "cancelled"

/-- One row of the `payments` table (schema in db/setup.js). -/
structure Payment where
  payment_id : String
  order_id : JsNum
  user_id : JsNum
  amount : JsNum
  payment_method : String
  status : PayStatus
  transaction_id : Option String
  gateway_response : Option String
  idempotency_key : String
deriving DecidableEq, Repr

/-- One row of the `payment_cancellations` table. -/
structure Cancellation where
  cancellation_id : String
  payment_id : String
  reason : Option String
  cancelled_by : Option JsNum
deriving DecidableEq, Repr

/-- The relational store the payment service operates on. -/
structure DB where
  payments : List Payment
  cancellations : List Cancellation
deriving DecidableEq, Repr

/-- Result of a JavaScript call: a thrown `Error(message)` or a value. -/
inductive JsResult (α : Type) where
  | thrown (msg : String)
  | ok (v : α)
deriving DecidableEq, Repr

/-- The INSERT into `payments`, honouring the UNIQUE constraints on
`idempotency_key` and `payment_id` (db/setup.js): a violation raises a
duplicate-entry error whose message carries the column name, as MySQL
reports it. -/
def insertPayment (db : DB) (p : Payment) : JsResult DB :=
  if db.payments.any (fun q => q.idempotency_key == p.idempotency_key) then
    .thrown ("Duplicate entry " ++ p.idempotency_key ++ " for key idempotency_key")
  else if db.payments.any (fun q => q.payment_id == p.payment_id) then
    .thrown ("Duplicate entry " ++ p.payment_id ++ " for key payment_id")
  else .ok { db with payments := db.payments ++ [p] }

/-- `UPDATE payments SET ... WHERE payment_id = ?` applied to a working
copy of the store. -/
def updateWhere (db : DB) (pid : String) (f : Payment → Payment) : DB :=
  { db with payments := db.payments.map fun p => if p.payment_id == pid then f p else p }

/-- Number of rows matching `payment_id = ?` (the `affectedRows` /
row-count the service inspects). -/
def countId (db : DB) (pid : String) : Nat :=
  (db.payments.filter fun p => p.payment_id == pid).length

/-- paymentService.js `approvePayment`: set `status = completed` and
`transaction_id`; zero affected rows (and the follow-up SELECT finding no
row) raise `Payment not found`.  The `fault` argument injects a failure
of the UPDATE statement itself (store unreachable mid-transaction). -/
def approvePayment (fault : Option String) (paymentId transactionId : String)
    (db : DB) : JsResult DB :=
  match fault with
  | some e => .thrown e
  | none =>
    if countId db paymentId = 0 then .thrown "Payment not found"
    else .ok (updateWhere db paymentId
      fun p => { p with status := .completed, transaction_id := some transactionId })

/-- paymentService.js `failPayment`: set `status = failed` and
`gateway_response`; zero affected rows raise `Payment not found`. -/
def failPayment (fault : Option String) (paymentId errorMessage : String)
    (db : DB) : JsResult DB :=
  match fault with
  | some e => .thrown e
  | none =>
    if countId db paymentId = 0 then .thrown "Payment not found"
    else .ok (updateWhere db paymentId
      fun p => { p with status := .failed, gateway_response := some errorMessage })

/-- Outcome of the gateway adapter (`processPaymentGateway` simulation or
a real charge): success with a transaction id, or failure with a
message. -/
structure GatewayResult where
  success : Bool
  transactionId : Option String
  errorMessage : Option String
deriving DecidableEq, Repr

/-- The object produced by `processCardPayment` and handed to
`createPayment` as `cardPaymentResult`. -/
structure CardPaymentResult where
  success : Bool
  transactionId : Option String
  cardType : Option String
  lastFourDigits : Option String
  error : Option String
deriving DecidableEq, Repr

/-- The value `createPayment` resolves with. -/
structure CreateResult where
  paymentId : String
  status : PayStatus
  transactionId : Option String
  errorMessage : Option String
deriving DecidableEq, Repr

/-- Environment of one `createPayment` call: the generated payment id
(`PAY_` ++ timestamp ++ random token), the gateway simulation's outcome
(it is driven by `Math.random`), and an injectable failure of the
terminal UPDATE statement. -/
structure CreateEnv where
  newPaymentId : String
  gateway : JsResult GatewayResult
  updateFault : Option String
deriving DecidableEq, Repr

/-- Result of running `createPayment`: what the call returns or throws,
the committed store afterwards, and whether the gateway adapter was
consulted. -/
structure CreateOutcome where
  result : JsResult CreateResult
  db : DB
  gatewayInvoked : Bool
deriving DecidableEq, Repr

/-- The `cardPaymentResult` branch of `createPayment`: the precomputed
result is wrapped as `success: true` with its `transactionId`; its own
`success` field is never consulted, so the approve path always runs.
`db` is the committed store for rollback, `db1` the working copy with
the pending row. -/
def settleCard (env : CreateEnv) (db db1 : DB) (c : CardPaymentResult) : CreateOutcome :=
  match approvePayment env.updateFault env.newPaymentId (c.transactionId.getD "") db1 with
  | .thrown e => ⟨.thrown e, db, false⟩
  | .ok db2 => ⟨.ok ⟨env.newPaymentId, .completed, c.transactionId, none⟩, db2, false⟩

/-- The gateway branch of `createPayment`: on adapter success approve
and commit, on adapter failure mark failed and commit. -/
def settleGateway (env : CreateEnv) (db db1 : DB) (g : GatewayResult) : CreateOutcome :=
  if g.success then
    match approvePayment env.updateFault env.newPaymentId (g.transactionId.getD "") db1 with
    | .thrown e => ⟨.thrown e, db, true⟩
    | .ok db2 => ⟨.ok ⟨env.newPaymentId, .completed, g.transactionId, none⟩, db2, true⟩
  else
    match failPayment env.updateFault env.newPaymentId (g.errorMessage.getD "") db1 with
    | .thrown e => ⟨.thrown e, db, true⟩
    | .ok db2 => ⟨.ok ⟨env.newPaymentId, .failed, none, g.errorMessage⟩, db2, true⟩

/-- Gateway-outcome selection of `createPayment`: a non-null
`cardPaymentResult` is used directly (without invoking the adapter),
otherwise the adapter is invoked — its own thrown error propagates. -/
def runGateway (env : CreateEnv) (db db1 : DB)
    (cardPaymentResult : Option CardPaymentResult) : CreateOutcome :=
  match cardPaymentResult with
  | some c => settleCard env db db1 c
  | none =>
    match env.gateway with
    | .thrown e => ⟨.thrown e, db, true⟩
    | .ok g => settleGateway env db db1 g

/-- The pending `payments` row `createPayment` inserts at the start of
its transaction. -/
def pendingRow (env : CreateEnv) (orderId userId amount : Option JsNum)
    (paymentMethod idempotencyKey : Option String) : Payment :=
  { payment_id := env.newPaymentId, order_id := orderId.getD .nan,
    user_id := userId.getD .nan, amount := amount.getD .nan,
    payment_method := paymentMethod.getD "", status := .pending,
    transaction_id := none, gateway_response := none,
    idempotency_key := idempotencyKey.getD "" }

/-- paymentService.js `createPayment(orderId, userId, amount,
paymentMethod, idempotencyKey, cardPaymentResult)`.  Validation happens
before the transaction is opened; the pending row is inserted, the
gateway outcome is determined and the row finalised (`runGateway`), and
the transaction commits.  Any thrown error rolls the working copy back:
the call returns the original store. -/
def createPayment (env : CreateEnv) (db : DB)
    (orderId userId amount : Option JsNum)
    (paymentMethod idempotencyKey : Option String)
    (cardPaymentResult : Option CardPaymentResult) : CreateOutcome :=
  if !(isValidUserId orderId) then ⟨.thrown "Invalid order_id", db, false⟩
  else if !(isValidUserId userId) then ⟨.thrown "Invalid user_id", db, false⟩
  else if !(isValidAmount amount) then ⟨.thrown "Invalid amount", db, false⟩
  else if !(isValidPaymentMethod paymentMethod) then ⟨.thrown "Invalid payment_method", db, false⟩
  else if idempotencyKey.getD "" == "" then ⟨.thrown "Invalid idempotency_key", db, false⟩
  else
    match insertPayment db (pendingRow env orderId userId amount paymentMethod idempotencyKey) with
    | .thrown e => ⟨.thrown e, db, false⟩
    | .ok db1 => runGateway env db db1 cardPaymentResult

/-- The value `cancelPayment` resolves with. -/
structure CancelResult where
  cancellationId : String
  status : PayStatus
deriving DecidableEq, Repr

/-- paymentService.js `cancelPayment(paymentId, reason, cancelledBy)`:
inside one transaction, look the payment up, require `status =
completed`, insert the cancellation row (its id `CAN_...` is the
injected `cancellationId`) and set `status = cancelled`; commit.  Any
thrown error rolls back and propagates. -/
def cancelPayment (cancellationId : String) (db : DB) (paymentId : Option String)
    (reason : Option String) (cancelledBy : Option JsNum) :
    JsResult CancelResult × DB :=
  if paymentId.getD "" == "" then (.thrown "Invalid payment_id", db)
  else
    let pid := paymentId.getD ""
    match db.payments.find? (fun p => p.payment_id == pid) with
    | none => (.thrown "Payment not found", db)
    | some p =>
      if p.status = .completed then
        let db1 : DB :=
          { db with cancellations := db.cancellations ++ [⟨cancellationId, pid, reason, cancelledBy⟩] }
        let db2 := updateWhere db1 pid (fun q => { q with status := .cancelled })
        (.ok ⟨cancellationId, .cancelled⟩, db2)
      else (.thrown "Only completed payments can be cancelled", db)

/-- A payment as returned by `getPaymentById`, with its cancellation
record attached when one exists. -/
structure PaymentView where
  payment : Payment
  cancellation : Option Cancellation
deriving DecidableEq, Repr

/-- paymentService.js `getPaymentById`: read-only lookup; `null` when no
row matches. -/
def getPaymentById (db : DB) (paymentId : Option String) : JsResult (Option PaymentView) :=
  if paymentId.getD "" == "" then .thrown "Invalid payment_id"
  else
    match db.payments.find? (fun p => p.payment_id == paymentId.getD "") with
    | none => .ok none
    | some p => .ok (some ⟨p, db.cancellations.find? (fun c => c.payment_id == p.payment_id)⟩)

/-- HTTP error classification of the POST /payments catch-block. -/
structure ErrResponse where
  statusCode : Nat
  error_code : String
  message : String
deriving DecidableEq, Repr

/-- The catch-block of `router.post` on /payments: map the thrown
message onto an HTTP status and error code by substring tests, falling
back to 500 / PAYMENT_FAILED. -/
def routeErrorMap (msg : String) : ErrResponse :=
  if includes msg "Invalid" then ⟨400, "VALIDATION_ERROR", msg⟩
  else if includes msg "not found" then ⟨404, "NOT_FOUND", msg⟩
  else if includes msg "transaction" then ⟨500, "TRANSACTION_ERROR", "Transaction failed"⟩
  else ⟨500, "PAYMENT_FAILED", msg⟩

/-- A JSON scalar as it occurs in the idempotency requestData objects:
a number or a string. -/
inductive FVal where
  | jnum (q : JsNum)
  | jstr (s : String)
deriving DecidableEq, Repr

/-- The requestData object assembled for fingerprinting.  The middleware
builds `order_id, payment_method, user_id, items, total_price` from the
request body; the route's store call builds only
`order_id, payment_method`.  Fields set to `none` model JavaScript
`undefined`. -/
structure RequestData where
  order_id : Option FVal
  payment_method : Option FVal
  user_id : Option FVal
  items : Option FVal
  total_price : Option FVal
deriving DecidableEq, Repr

/-- encryption.js `hashRequestData`: SHA-256 over
`JSON.stringify(requestData)`.  `JSON.stringify` serialises the present
fields in insertion order and omits `undefined` ones; the hash is
modelled as collision-free, so the fingerprint is the ordered list of
present key-value pairs. -/
def hashRequestData (rd : RequestData) : List (String × FVal) :=
  (match rd.order_id with | some v => [("order_id", v)] | none => []) ++
  (match rd.payment_method with | some v => [("payment_method", v)] | none => []) ++
  (match rd.user_id with | some v => [("user_id", v)] | none => []) ++
  (match rd.items with | some v => [("items", v)] | none => []) ++
  (match rd.total_price with | some v => [("total_price", v)] | none => [])

/-- Body of a POST /payments request: `order_id`, `payment_method` and
`idempotency_key` (the card_data flow, which runs before the lock and
the transaction manager, is out of scope of the route-level claims). -/
structure ReqBody where
  order_id : JsNum
  payment_method : String
  idempotency_key : String
deriving DecidableEq, Repr

/-- The requestData the `checkIdempotency` middleware builds from the
body.  A payment body carries no `user_id`, `items` or `total_price`, so
those read as `undefined`. -/
def checkRequestData (body : ReqBody) : RequestData :=
  ⟨some (.jnum body.order_id), some (.jstr body.payment_method), none, none, none⟩

/-- The requestData the route hands to `storeIdempotencyResponse`:
`order_id` and `payment_method` only. -/
def storeRequestData (body : ReqBody) : RequestData :=
  ⟨some (.jnum body.order_id), some (.jstr body.payment_method), none, none, none⟩

/-- The JSON body of a POST /payments response. -/
structure RespBody where
  success : Bool
  payment_id : Option String
  status : Option String
  message : String
  transaction_id : Option String
  error_message : Option String
  error_code : Option String
deriving DecidableEq, Repr

/-- An error response body: `success: false` with a message and an error
code. -/
def errorBody (msg code : String) : RespBody :=
  ⟨false, none, none, msg, none, none, some code⟩

/-- The responseData the route builds from a resolved `createPayment`
result (success flag, payment id, status string, message, and the
optional transaction id / error message). -/
def responseDataOf (r : CreateResult) : RespBody :=
  { success := true, payment_id := some r.paymentId, status := some (statusString r.status),
    message := if r.status = .completed then "Payment processed successfully" else "Payment failed",
    transaction_id := r.transactionId, error_message := r.errorMessage, error_code := none }

/-- One row of the `idempotency_keys` table (db/setup.js): the key, the
request fingerprint, the stored response and the expiry instant. -/
structure LedgerRecord where
  key : String
  request_hash : List (String × FVal)
  response_data : RespBody
  expires_at : Nat
deriving DecidableEq, Repr

/-- Modelled from the spec: `idempotencyService.js` is absent from the
source tree; per spec §4.2 `lookup(key)` returns the record for `key`
when a non-expired one exists. -/
def getIdempotencyRecord (ledger : List LedgerRecord) (key : String) (now : Nat) :
    Option LedgerRecord :=
  ledger.find? (fun r => r.key == key && decide (now < r.expires_at))

/-- Modelled from the spec: `checkIdempotencyKey` reports whether a
non-expired record exists for the key. -/
def checkIdempotencyKey (ledger : List LedgerRecord) (key : String) (now : Nat) : Bool :=
  (getIdempotencyRecord ledger key now).isSome

/-- Modelled from the spec: `validateRequestData` compares the stored
fingerprint with the fingerprint of the caller-supplied requestData;
vacuously true when no record exists (the middleware only calls it after
a successful existence check). -/
def validateRequestData (ledger : List LedgerRecord) (key : String) (rd : RequestData)
    (now : Nat) : Bool :=
  match getIdempotencyRecord ledger key now with
  | some r => decide (r.request_hash = hashRequestData rd)
  | none => true

/-- Modelled from the spec: `getIdempotencyResult` returns the stored
response of a non-expired record. -/
def getIdempotencyResult (ledger : List LedgerRecord) (key : String) (now : Nat) :
    Option RespBody :=
  (getIdempotencyRecord ledger key now).map (·.response_data)

/-- Modelled from the spec: `storeIdempotencyKey` writes
`(key, fingerprint, response, now + 24h)`; a uniqueness violation on the
key column is benign — the write is discarded and the existing record
wins. -/
def storeIdempotencyKey (ledger : List LedgerRecord) (key : String) (rd : RequestData)
    (resp : RespBody) (now : Nat) : List LedgerRecord :=
  if ledger.any (fun r => r.key == key) then ledger
  else ledger ++ [⟨key, hashRequestData rd, resp, now + 86400⟩]

/-- The order object returned by the Order API for the `order_id`. -/
structure OrderInfo where
  user_id : JsNum
  total_price : JsNum
  status : String
deriving DecidableEq, Repr

/-- The shared external state a POST /payments call reads and writes:
the payment store, the idempotency ledger, and the Redis lock entries
(key ↦ expiry instant). -/
structure SysState where
  db : DB
  ledger : List LedgerRecord
  locks : List (String × Nat)
deriving DecidableEq, Repr

/-- Environment of one POST /payments call: the wall-clock instant, the
reachability of the Redis lock store and of the idempotency service
(lookup and write separately — each call can fail on its own), the Order
API's answer, and the `createPayment` environment. -/
structure CallEnv where
  now : Nat
  redisUp : Bool
  ledgerLookupUp : Bool
  ledgerStoreUp : Bool
  order : Option OrderInfo
  create : CreateEnv
deriving DecidableEq, Repr

/-- Whether a non-expired lock entry for `k` exists. -/
def liveLock (locks : List (String × Nat)) (k : String) (now : Nat) : Bool :=
  locks.any (fun l => l.1 == k && decide (now < l.2))

/-- Redis `SET k ... NX EX 30`: replace any stale entry for `k` and
record the new expiry. -/
def setLock (locks : List (String × Nat)) (k : String) (exp : Nat) : List (String × Nat) :=
  locks.filter (fun l => !(l.1 == k)) ++ [(k, exp)]

/-- Redis `DEL k`. -/
def delLock (locks : List (String × Nat)) (k : String) : List (String × Nat) :=
  locks.filter (fun l => !(l.1 == k))

/-- The Redis key `payment_lock:` ++ order_id guarding one order's
submissions. -/
def lockKeyOf (body : ReqBody) : String := "payment_lock:" ++ jsIntToString body.order_id

/-- What the `checkIdempotency` middleware decides: replay a cached
response, reject a conflicting reuse, or fall through to the handler. -/
inductive IdemOutcome where
  | replayed (cached : RespBody)
  | conflict
  | proceed
deriving DecidableEq, Repr

/-- middleware `checkIdempotency`: missing key falls through; a thrown
idempotency-service error is caught and falls through (the check must
not block the request); an existing record with a mismatched fingerprint
is a 409 conflict; one with a matching fingerprint replays the cached
response. -/
def checkIdempotency (env : CallEnv) (ledger : List LedgerRecord) (body : ReqBody) :
    IdemOutcome :=
  if body.idempotency_key == "" then .proceed
  else if !env.ledgerLookupUp then .proceed
  else if !(checkIdempotencyKey ledger body.idempotency_key env.now) then .proceed
  else if !(validateRequestData ledger body.idempotency_key (checkRequestData body) env.now) then
    .conflict
  else
    match getIdempotencyResult ledger body.idempotency_key env.now with
    | some cached => .replayed cached
    | none => .proceed

/-- middleware `validatePaymentRequest`: required fields, positive
integral `order_id`, enumerated `payment_method`, UUID v4
`idempotency_key`.  (`detectSQLInjection` on the method is omitted: it
is constant false on the closed enumeration that already passed.) -/
def validatePaymentCheck (body : ReqBody) : Option String :=
  if jsFalsy body.order_id then some "order_id is required"
  else if body.payment_method == "" then some "payment_method is required"
  else if body.idempotency_key == "" then some "idempotency_key is required"
  else if !(isValidUserId (some body.order_id)) then some "Invalid order_id"
  else if !(isValidPaymentMethod (some body.payment_method)) then some "Invalid payment_method"
  else if !(isValidIdempotencyKey (some body.idempotency_key)) then some "Invalid idempotency_key"
  else none

/-- Everything a POST /payments call produces: the HTTP status, the JSON
body, the external state afterwards, and whether the gateway adapter was
invoked. -/
structure RouteOutcome where
  status : Nat
  body : RespBody
  state : SysState
  gatewayInvoked : Bool
deriving DecidableEq, Repr

/-- The tail of the route handler once the order is known and the lock
step is done: run `createPayment`; a thrown error goes to the catch
block — which performs no lock release — while a resolved result is
stored in the ledger (write failures only logged), answered with
200/422, and the lock is released. -/
def processPayment (env : CallEnv) (st : SysState) (body : ReqBody)
    (order : OrderInfo) (hasLock : Bool) : RouteOutcome :=
  let co := createPayment env.create st.db (some body.order_id) (some order.user_id)
      (some order.total_price) (some body.payment_method) (some body.idempotency_key) none
  match co.result with
  | .thrown msg =>
    let em := routeErrorMap msg
    ⟨em.statusCode, errorBody em.message em.error_code, { st with db := co.db }, co.gatewayInvoked⟩
  | .ok r =>
    let responseData := responseDataOf r
    let ledger1 :=
      if env.ledgerStoreUp then
        storeIdempotencyKey st.ledger body.idempotency_key (storeRequestData body)
          responseData env.now
      else st.ledger
    let locks1 := if hasLock then delLock st.locks (lockKeyOf body) else st.locks
    ⟨if r.status = .completed then 200 else 422, responseData,
      ⟨co.db, ledger1, locks1⟩, co.gatewayInvoked⟩

/-- The route handler body after the middlewares: order lookup and
status check, then the Redis lock — an unreachable lock store is
fail-open (processing continues without the lock), a live lock answers
429, otherwise the lock is taken with a 30 second TTL. -/
def handlerCore (env : CallEnv) (st : SysState) (body : ReqBody) : RouteOutcome :=
  match env.order with
  | none => ⟨404, errorBody "Order not found" "ORDER_NOT_FOUND", st, false⟩
  | some order =>
    if order.status = "pending" then
      if env.redisUp then
        if liveLock st.locks (lockKeyOf body) env.now then
          ⟨429, errorBody "Payment is already being processed for this order"
            "PAYMENT_IN_PROGRESS", st, false⟩
        else
          processPayment env
            { st with locks := setLock st.locks (lockKeyOf body) (env.now + 30) }
            body order true
      else processPayment env st body order false
    else
      ⟨422, errorBody ("Order cannot be paid. Current status: " ++ order.status)
        "INVALID_ORDER_STATUS", st, false⟩

/-- POST /payments end to end: `validatePaymentRequest`, then
`checkIdempotency` (replay 200 / conflict 409 / fall through), then the
handler. -/
def handlePayment (env : CallEnv) (st : SysState) (body : ReqBody) : RouteOutcome :=
  match validatePaymentCheck body with
  | some msg => ⟨400, errorBody msg "VALIDATION_ERROR", st, false⟩
  | none =>
    match checkIdempotency env st.ledger body with
    | .conflict =>
      ⟨409, errorBody "Idempotency key conflict: same key used with different request data"
        "DUPLICATE_REQUEST", st, false⟩
    | .replayed cached => ⟨200, cached, st, false⟩
    | .proceed => handlerCore env st body

/-- The status transitions the spec's state machine allows. -/
def allowedTransition (s t : PayStatus) : Prop :=
  (s = .pending ∧ t = .completed) ∨ (s = .pending ∧ t = .failed) ∨
  (s = .completed ∧ t = .cancelled)

/-- One committed step of the exposed mutating operations on the store
(`getPaymentById` is read-only and changes nothing). -/
inductive PaymentStep : DB → DB → Prop where
  | create (env : CreateEnv) (o u a : Option JsNum) (m k : Option String)
      (c : Option CardPaymentResult) (db : DB) :
      PaymentStep db (createPayment env db o u a m k c).db
  | cancel (cid : String) (pid r : Option String) (cb : Option JsNum) (db : DB) :
      PaymentStep db (cancelPayment cid db pid r cb).2

/-- A well-formed version-4 UUID used as idempotency key in the concrete
scenarios. -/
def keyA : String := "11111111-1111-4111-8111-111111111111"

/-- Concrete request body: order 42 paid by card under `keyA`. -/
def bodyA : ReqBody := ⟨.num 42, "card", keyA⟩

/-- Concrete order 42: owner 7, total 59.98, still pending. -/
def orderA : OrderInfo := ⟨.num 7, .num (mkRat 5998 100), "pending"⟩

/-- Concrete `createPayment` environment whose gateway approves. -/
def envCreateOk : CreateEnv := ⟨"PAY_1", .ok ⟨true, some "TXN_1", none⟩, none⟩

/-- Concrete `createPayment` environment whose gateway declines. -/
def envCreateDecline : CreateEnv :=
  ⟨"PAY_1", .ok ⟨false, none, some "Payment declined by gateway"⟩, none⟩

/-- The empty payment store. -/
def db0 : DB := ⟨[], []⟩

/-- A precomputed card-charge result that reports failure. -/
def cFail : CardPaymentResult := ⟨false, some "TX9", some "visa", some "1234", some "card declined"⟩

/-- A completed payment for order 41 already holding `keyA`. -/
def payCompleted : Payment :=
  ⟨"PAY_0", .num 41, .num 7, .num (mkRat 100 1), "card", .completed, some "TXN_0", none, keyA⟩

/-- A store already holding `payCompleted` (hence the key `keyA`). -/
def dbWithKey : DB := ⟨[payCompleted], []⟩

/-- External state whose payment store is `dbWithKey`, with empty ledger
and no locks. -/
def stWithKey : SysState := ⟨dbWithKey, [], []⟩

/-- Concrete `createPayment` environment whose gateway adapter call
itself throws. -/
def envCreateGwDown : CreateEnv := ⟨"PAY_1", .thrown "gateway unreachable", none⟩

/-- The empty external state. -/
def st0 : SysState := ⟨⟨[], []⟩, [], []⟩

/-- Concrete call environment: everything reachable, order 42 pending,
gateway approves. -/
def env1 : CallEnv := ⟨0, true, true, true, some orderA, envCreateOk⟩

/-- Concrete call environment whose `createPayment` gateway call
throws. -/
def envGwDownCall : CallEnv := ⟨0, true, true, true, some orderA, envCreateGwDown⟩

/-- Concrete retry environment, 10 seconds after `envGwDownCall`. -/
def env2retry : CallEnv := ⟨10, true, true, true, some orderA, envCreateOk⟩

/-- Order 42 with a changed total (200 instead of 100 or 59.98). -/
def orderB : OrderInfo := ⟨.num 7, .num (mkRat 200 1), "pending"⟩

/-- Second-call environment 40 seconds later whose order lookup reports
the changed total. -/
def envAmt2 : CallEnv := ⟨40, true, true, true, some orderB, ⟨"PAY_2", .ok ⟨true, some "TXN_2", none⟩, none⟩⟩

/-- Concrete call environment with the lock store and the idempotency
service all unreachable. -/
def envLedgerDown : CallEnv := ⟨0, false, false, false, some orderA, envCreateOk⟩

/-- `env1` with only the ledger write leg unreachable. -/
def envStoreDown : CallEnv := ⟨0, true, true, false, some orderA, envCreateOk⟩

/-- A stored success response used in ledger fixtures. -/
def respStored : RespBody :=
  ⟨true, some "PAY_9", some "completed", "Payment processed successfully", some "TXN_9", none, none⟩

/-- A ledger record for `keyA` fingerprinting `bodyA`, expiring at
86400. -/
def recA : LedgerRecord := ⟨keyA, hashRequestData (checkRequestData bodyA), respStored, 86400⟩

/-- External state whose ledger holds `recA`. -/
def stLedgerA : SysState := ⟨⟨[], []⟩, [recA], []⟩

/-- A request body reusing `keyA` for a different order (43). -/
def bodyB : ReqBody := ⟨.num 43, "card", keyA⟩

/-- Elimination form of a successful INSERT into `payments`: both
uniqueness checks passed and the row was appended. -/
theorem insertPayment_ok_elim {db : DB} {p : Payment} {db1 : DB}
    (h : insertPayment db p = .ok db1) :
    db.payments.any (fun q => q.idempotency_key == p.idempotency_key) = false ∧
    db.payments.any (fun q => q.payment_id == p.payment_id) = false ∧
    db1 = { db with payments := db.payments ++ [p] } := by
  unfold insertPayment at h
  split at h
  · exact absurd h (by simp)
  · split at h
    · exact absurd h (by simp)
    · refine ⟨by simp_all, by simp_all, by simp_all⟩

/-- Elimination form of a successful `approvePayment`: no injected
fault, at least one matching row, and the row was finalised. -/
theorem approvePayment_ok_elim {fault : Option String} {pid txn : String} {db db2 : DB}
    (h : approvePayment fault pid txn db = .ok db2) :
    fault = none ∧ countId db pid ≠ 0 ∧
    db2 = updateWhere db pid
      (fun p => { p with status := .completed, transaction_id := some txn }) := by
  cases fault with
  | some e => simp [approvePayment] at h
  | none =>
    simp only [approvePayment] at h
    split at h
    · exact absurd h (by simp)
    · exact ⟨rfl, by assumption, by injection h with h2; exact h2.symm⟩

/-- Elimination form of a successful `failPayment`. -/
theorem failPayment_ok_elim {fault : Option String} {pid msg : String} {db db2 : DB}
    (h : failPayment fault pid msg db = .ok db2) :
    fault = none ∧ countId db pid ≠ 0 ∧
    db2 = updateWhere db pid
      (fun p => { p with status := .failed, gateway_response := some msg }) := by
  cases fault with
  | some e => simp [failPayment] at h
  | none =>
    simp only [failPayment] at h
    split at h
    · exact absurd h (by simp)
    · exact ⟨rfl, by assumption, by injection h with h2; exact h2.symm⟩

/-- Rollback of the card branch: a thrown error returns the committed
store. -/
theorem settleCard_thrown_db (env : CreateEnv) (db db1 : DB) (c : CardPaymentResult)
    (msg : String) :
    (settleCard env db db1 c).result = .thrown msg →
    (settleCard env db db1 c).db = db := by
  unfold settleCard
  repeat' split
  all_goals intro h
  all_goals simp_all

/-- Rollback of the gateway branch: a thrown error returns the
committed store. -/
theorem settleGateway_thrown_db (env : CreateEnv) (db db1 : DB) (g : GatewayResult)
    (msg : String) :
    (settleGateway env db db1 g).result = .thrown msg →
    (settleGateway env db db1 g).db = db := by
  unfold settleGateway
  repeat' split
  all_goals intro h
  all_goals simp_all

/-- Rollback of the gateway-outcome selection. -/
theorem runGateway_thrown_db (env : CreateEnv) (db db1 : DB)
    (c : Option CardPaymentResult) (msg : String) :
    (runGateway env db db1 c).result = .thrown msg →
    (runGateway env db db1 c).db = db := by
  unfold runGateway
  repeat' split
  · exact settleCard_thrown_db _ _ _ _ _
  · intro h; simp_all
  · exact settleGateway_thrown_db _ _ _ _ _

/-- Rollback: whenever `createPayment` throws, the committed store is
the one the call started from. -/
theorem createPayment_thrown_db (env : CreateEnv) (db : DB)
    (o u a : Option JsNum) (m k : Option String) (c : Option CardPaymentResult)
    (msg : String) :
    (createPayment env db o u a m k c).result = .thrown msg →
    (createPayment env db o u a m k c).db = db := by
  unfold createPayment
  repeat' split
  all_goals intro h
  all_goals first
    | exact runGateway_thrown_db _ _ _ _ _ h
    | simp_all

/-- Rollback: whenever `cancelPayment` throws, the committed store is
the one the call started from. -/
theorem cancelPayment_thrown_db (cid : String) (db : DB) (pid r : Option String)
    (cb : Option JsNum) (msg : String) :
    (cancelPayment cid db pid r cb).1 = .thrown msg →
    (cancelPayment cid db pid r cb).2 = db := by
  unfold cancelPayment
  repeat' split
  all_goals intro h
  all_goals try simp_all
  all_goals split at h
  all_goals try simp_all
  all_goals split at h
  all_goals simp_all

/-- Updating the freshly appended row leaves every pre-existing row
unchanged. -/
theorem updateWhere_fresh_append (db : DB) (row : Payment) (f : Payment → Payment)
    (h : db.payments.any (fun q => q.payment_id == row.payment_id) = false) :
    updateWhere { db with payments := db.payments ++ [row] } row.payment_id f
      = { db with payments := db.payments ++ [f row] } := by
  have h' : ∀ q ∈ db.payments, (q.payment_id == row.payment_id) = false := by
    simpa [List.any_eq_false] using h
  simp only [updateWhere]
  congr 1
  rw [List.map_append]
  congr 1
  · calc db.payments.map (fun p => if p.payment_id == row.payment_id then f p else p)
        = db.payments.map id := List.map_congr_left (fun q hq => by simp [h' q hq])
      _ = db.payments := List.map_id _
  · simp

/-- The pending-row count of `payment_id` matches after appending the
row itself. -/
theorem countId_append_self (db : DB) (row : Payment) :
    countId { db with payments := db.payments ++ [row] } row.payment_id
      = countId db row.payment_id + 1 := by
  simp [countId, List.filter_append]

/-- Reduction of `createPayment` past validation and insert: with valid
inputs and both uniqueness checks clear, the call is the gateway stage
run on the working copy holding the pending row. -/
theorem createPayment_run (env : CreateEnv) (db : DB)
    (o u a : Option JsNum) (m k : Option String) (card : Option CardPaymentResult)
    (hv1 : isValidUserId o = true) (hv2 : isValidUserId u = true)
    (hv3 : isValidAmount a = true) (hv4 : isValidPaymentMethod m = true)
    (hv5 : (k.getD "" == "") = false)
    (hf1 : db.payments.any (fun q => q.idempotency_key == k.getD "") = false)
    (hf2 : db.payments.any (fun q => q.payment_id == env.newPaymentId) = false) :
    createPayment env db o u a m k card
      = runGateway env db { db with payments := db.payments ++ [pendingRow env o u a m k] }
          card := by
  simp [createPayment, hv1, hv2, hv3, hv4, hv5, insertPayment, pendingRow, hf1, hf2]

/-- Reduction of the card branch with no injected fault: approve always
runs and the call resolves `completed` carrying the precomputed
transaction id. -/
theorem settleCard_run (env : CreateEnv) (db db1 : DB) (c : CardPaymentResult)
    (hfault : env.updateFault = none)
    (hcount : countId db1 env.newPaymentId ≠ 0) :
    settleCard env db db1 c
      = ⟨.ok ⟨env.newPaymentId, .completed, c.transactionId, none⟩,
          updateWhere db1 env.newPaymentId
            (fun p => { p with status := .completed, transaction_id := some (c.transactionId.getD "") }),
          false⟩ := by
  simp [settleCard, approvePayment, hfault, hcount]

/-- Reduction of the gateway branch on adapter success. -/
theorem settleGateway_run_success (env : CreateEnv) (db db1 : DB) (g : GatewayResult)
    (hs : g.success = true) (hfault : env.updateFault = none)
    (hcount : countId db1 env.newPaymentId ≠ 0) :
    settleGateway env db db1 g
      = ⟨.ok ⟨env.newPaymentId, .completed, g.transactionId, none⟩,
          updateWhere db1 env.newPaymentId
            (fun p => { p with status := .completed, transaction_id := some (g.transactionId.getD "") }),
          true⟩ := by
  simp [settleGateway, approvePayment, hs, hfault, hcount]

/-- Reduction of the gateway branch on adapter decline. -/
theorem settleGateway_run_decline (env : CreateEnv) (db db1 : DB) (g : GatewayResult)
    (hs : g.success = false) (hfault : env.updateFault = none)
    (hcount : countId db1 env.newPaymentId ≠ 0) :
    settleGateway env db db1 g
      = ⟨.ok ⟨env.newPaymentId, .failed, none, g.errorMessage⟩,
          updateWhere db1 env.newPaymentId
            (fun p => { p with status := .failed, gateway_response := some (g.errorMessage.getD "") }),
          true⟩ := by
  simp [settleGateway, failPayment, hs, hfault, hcount]

/-- C1 (corrected): for every `createPayment` call with valid inputs, a
fresh idempotency key and a non-null `precomputedChargeResult`, the
precomputed result is unconditionally treated as a gateway success: the
payment resolves `completed` carrying the precomputed `transactionId` —
regardless of the precomputed result's own `success` verdict — and the
gateway adapter is not invoked. -/
theorem c1_precomputed_always_success (env : CreateEnv) (db : DB)
    (o u a : Option JsNum) (m k : Option String) (c : CardPaymentResult)
    (hv1 : isValidUserId o = true) (hv2 : isValidUserId u = true)
    (hv3 : isValidAmount a = true) (hv4 : isValidPaymentMethod m = true)
    (hv5 : (k.getD "" == "") = false)
    (hf1 : db.payments.any (fun q => q.idempotency_key == k.getD "") = false)
    (hf2 : db.payments.any (fun q => q.payment_id == env.newPaymentId) = false)
    (hfault : env.updateFault = none) :
    createPayment env db o u a m k (some c)
      = ⟨.ok ⟨env.newPaymentId, .completed, c.transactionId, none⟩,
          { db with payments := db.payments ++
              [{ pendingRow env o u a m k with status := .completed, transaction_id := some (c.transactionId.getD "") }] },
          false⟩ := by
  have hpid : (pendingRow env o u a m k).payment_id = env.newPaymentId := rfl
  have hcount : countId { db with payments := db.payments ++ [pendingRow env o u a m k] }
      env.newPaymentId ≠ 0 := by
    have hc := countId_append_self db (pendingRow env o u a m k)
    rw [hpid] at hc
    omega
  rw [createPayment_run env db o u a m k (some c) hv1 hv2 hv3 hv4 hv5 hf1 hf2]
  simp only [runGateway]
  rw [settleCard_run env db _ c hfault hcount]
  have hfr := updateWhere_fresh_append db (pendingRow env o u a m k)
    (fun p => { p with status := .completed, transaction_id := some (c.transactionId.getD "") })
    (by rw [hpid]; exact hf2)
  rw [hpid] at hfr
  rw [hfr]

/-- C1 counterexample: a precomputed charge result that reports failure
still yields a `completed` payment carrying its transaction id, where
the claim demands a `failed` payment. -/
theorem c1_counterexample :
    cFail.success = false ∧
    (createPayment envCreateOk db0 (some (.num 42)) (some (.num 7))
        (some (.num (mkRat 5998 100))) (some "card") (some keyA) (some cFail)).result
      = .ok ⟨"PAY_1", PayStatus.completed, some "TX9", none⟩ ∧
    PayStatus.completed ≠ PayStatus.failed := by
  refine ⟨rfl, by decide, by decide⟩

/-- Witness for C1: the amended theorem applied at a concrete input. -/
theorem c1_witness :
    createPayment envCreateOk db0 (some (.num 42)) (some (.num 7))
        (some (.num (mkRat 5998 100))) (some "card") (some keyA) (some cFail)
      = ⟨.ok ⟨envCreateOk.newPaymentId, .completed, cFail.transactionId, none⟩,
          { db0 with payments := db0.payments ++
              [{ pendingRow envCreateOk (some (.num 42)) (some (.num 7))
                   (some (.num (mkRat 5998 100))) (some "card") (some keyA) with
                 status := .completed, transaction_id := some (cFail.transactionId.getD "") }] },
          false⟩ :=
  c1_precomputed_always_success envCreateOk db0 (some (.num 42)) (some (.num 7))
    (some (.num (mkRat 5998 100))) (some "card") (some keyA) cFail
    (by decide) (by decide) (by decide) (by decide) (by decide) (by decide) (by decide) rfl

/-- C9 (corrected): `createPayment` rejects with a `ValidationError`
(`Invalid amount`, before any persistence) exactly outside the accepted
amount set, and the accepted set of finite amounts is
`0.01 ≤ amount ≤ 10,000,000` — not `0 < amount ≤ 10,000,000`;
non-finite and missing amounts are always rejected, and with all inputs
valid (fresh key, reachable store, adapter answering) the call resolves
without a validation error. -/
theorem c9_amount_validation_bounds :
    (∀ q : ℚ, isValidAmount (some (.num q))
        = (decide (mkRat 1 100 ≤ q) && decide (q ≤ 10000000))) ∧
    (isValidAmount none = false ∧ isValidAmount (some .nan) = false ∧
     isValidAmount (some .posInf) = false ∧ isValidAmount (some .negInf) = false) ∧
    (∀ (env : CreateEnv) (db : DB) (o u a : Option JsNum) (m k : Option String)
        (c : Option CardPaymentResult),
        isValidUserId o = true → isValidUserId u = true → isValidAmount a = false →
        createPayment env db o u a m k c = ⟨.thrown "Invalid amount", db, false⟩) ∧
    (∀ (env : CreateEnv) (db : DB) (o u a : Option JsNum) (m k : Option String)
        (g : GatewayResult),
        isValidUserId o = true → isValidUserId u = true → isValidAmount a = true →
        isValidPaymentMethod m = true → (k.getD "" == "") = false →
        db.payments.any (fun q => q.idempotency_key == k.getD "") = false →
        db.payments.any (fun q => q.payment_id == env.newPaymentId) = false →
        env.updateFault = none → env.gateway = .ok g →
        ∃ r, (createPayment env db o u a m k none).result = .ok r) := by
  refine ⟨?_, ⟨rfl, rfl, rfl, rfl⟩, ?_, ?_⟩
  · intro q
    simp only [isValidAmount]
    by_cases h1 : mkRat 1 100 ≤ q
    · have h0 : 0 < q := lt_of_lt_of_le (by decide) h1
      by_cases h2 : q ≤ 10000000 <;> simp [h0, h1, h2]
    · simp [h1]
  · intro env db o u a m k c hv1 hv2 hva
    simp [createPayment, hv1, hv2, hva]
  · intro env db o u a m k g hv1 hv2 hv3 hv4 hv5 hf1 hf2 hfault hgw
    rw [createPayment_run env db o u a m k none hv1 hv2 hv3 hv4 hv5 hf1 hf2]
    simp only [runGateway, hgw]
    have hpid : (pendingRow env o u a m k).payment_id = env.newPaymentId := rfl
    have hcount : countId { db with payments := db.payments ++ [pendingRow env o u a m k] }
        env.newPaymentId ≠ 0 := by
      have hc := countId_append_self db (pendingRow env o u a m k)
      rw [hpid] at hc
      omega
    cases hs : g.success
    · rw [settleGateway_run_decline env db _ g hs hfault hcount]
      exact ⟨_, rfl⟩
    · rw [settleGateway_run_success env db _ g hs hfault hcount]
      exact ⟨_, rfl⟩

/-- C9 counterexample: the amount 0.005 is finite, strictly positive and
below the maximum, so the claim demands acceptance, yet `createPayment`
rejects it with `Invalid amount` (the code's lower bound is 0.01). -/
theorem c9_counterexample :
    (0 : ℚ) < mkRat 1 200 ∧ (mkRat 1 200 : ℚ) ≤ 10000000 ∧
    createPayment envCreateOk db0 (some (.num 42)) (some (.num 7))
        (some (.num (mkRat 1 200))) (some "card") (some keyA) none
      = ⟨.thrown "Invalid amount", db0, false⟩ := by
  refine ⟨by decide, by decide, by decide⟩

/-- Witness for C9: the amended theorem applied at concrete inputs — the
amended amount predicate at 59.98, rejection of -5 without persistence,
and a fully valid call resolving. -/
theorem c9_witness :
    isValidAmount (some (.num (mkRat 5998 100)))
      = (decide ((mkRat 1 100 : ℚ) ≤ mkRat 5998 100) && decide ((mkRat 5998 100 : ℚ) ≤ 10000000)) ∧
    createPayment envCreateOk db0 (some (.num 42)) (some (.num 7))
        (some (.num (mkRat (-5) 1))) (some "card") (some keyA) none
      = ⟨.thrown "Invalid amount", db0, false⟩ ∧
    ∃ r, (createPayment envCreateOk db0 (some (.num 42)) (some (.num 7))
        (some (.num (mkRat 5998 100))) (some "card") (some keyA) none).result = .ok r :=
  ⟨c9_amount_validation_bounds.1 (mkRat 5998 100),
   c9_amount_validation_bounds.2.2.1 envCreateOk db0 (some (.num 42)) (some (.num 7))
     (some (.num (mkRat (-5) 1))) (some "card") (some keyA) none
     (by decide) (by decide) (by decide),
   c9_amount_validation_bounds.2.2.2 envCreateOk db0 (some (.num 42)) (some (.num 7))
     (some (.num (mkRat 5998 100))) (some "card") (some keyA) ⟨true, some "TXN_1", none⟩
     (by decide) (by decide) (by decide) (by decide) (by decide) (by decide) (by decide)
     rfl rfl⟩

/-- The idempotency keys of the store, in row order. -/
def keysOf (db : DB) : List String := db.payments.map (·.idempotency_key)

/-- The payment ids of the store, in row order. -/
def idsOf (db : DB) : List String := db.payments.map (·.payment_id)

/-- Case analysis of the gateway stage's committed store: rollback, or a
row-wise update of the working copy at the new payment id by a function
that changes neither `payment_id` nor `idempotency_key`. -/
theorem runGateway_db_cases (env : CreateEnv) (db db1 : DB)
    (c : Option CardPaymentResult) :
    (runGateway env db db1 c).db = db ∨
    ∃ f : Payment → Payment,
      (runGateway env db db1 c).db = updateWhere db1 env.newPaymentId f ∧
      (∀ p, (f p).payment_id = p.payment_id ∧ (f p).idempotency_key = p.idempotency_key ∧
            (f p).order_id = p.order_id ∧ (f p).user_id = p.user_id ∧
            (f p).amount = p.amount ∧ (f p).status ≠ .pending) := by
  unfold runGateway settleCard settleGateway
  repeat' split
  all_goals try (left; rfl)
  · rename_i db2 heq
    obtain ⟨-, -, hdb2⟩ := approvePayment_ok_elim heq
    exact .inr ⟨_, hdb2, fun p => ⟨rfl, rfl, rfl, rfl, rfl, by simp⟩⟩
  · rename_i db2 heq
    obtain ⟨-, -, hdb2⟩ := approvePayment_ok_elim heq
    exact .inr ⟨_, hdb2, fun p => ⟨rfl, rfl, rfl, rfl, rfl, by simp⟩⟩
  · rename_i db2 heq
    obtain ⟨-, -, hdb2⟩ := failPayment_ok_elim heq
    exact .inr ⟨_, hdb2, fun p => ⟨rfl, rfl, rfl, rfl, rfl, by simp⟩⟩

/-- Case analysis of `createPayment`'s committed store: unchanged, or
one appended row carrying the fresh payment id and the request's
idempotency key, in a non-pending status. -/
theorem createPayment_db_cases (env : CreateEnv) (db : DB)
    (o u a : Option JsNum) (m k : Option String) (c : Option CardPaymentResult) :
    (createPayment env db o u a m k c).db = db ∨
    ∃ row : Payment, row.payment_id = env.newPaymentId ∧
      row.idempotency_key = k.getD "" ∧ row.status ≠ .pending ∧
      db.payments.any (fun q => q.payment_id == row.payment_id) = false ∧
      db.payments.any (fun q => q.idempotency_key == row.idempotency_key) = false ∧
      (createPayment env db o u a m k c).db = { db with payments := db.payments ++ [row] } := by
  unfold createPayment
  repeat' split
  all_goals try (left; rfl)
  rename_i db1 heq
  obtain ⟨hk1, hk2, hdb1⟩ := insertPayment_ok_elim heq
  rcases runGateway_db_cases env db db1 c with hro | ⟨f, hdb', hf⟩
  · exact .inl hro
  · refine .inr ⟨f (pendingRow env o u a m k), ?_, ?_, ?_, ?_, ?_, ?_⟩
    · exact (hf _).1
    · exact (hf _).2.1
    · exact (hf _).2.2.2.2.2
    · rw [(hf _).1]; exact hk2
    · rw [(hf _).2.1]; exact hk1
    · rw [hdb', hdb1]
      have := updateWhere_fresh_append db (pendingRow env o u a m k) f hk2
      rw [show (pendingRow env o u a m k).payment_id = env.newPaymentId from rfl] at this
      exact this

/-- Case analysis of `cancelPayment`'s committed store: unchanged, or —
when the first row matching the id is `completed` — the matching rows
switched to `cancelled` and one cancellation row appended. -/
theorem cancelPayment_db_cases (cid : String) (db : DB) (pid r : Option String)
    (cb : Option JsNum) :
    (cancelPayment cid db pid r cb).2 = db ∨
    ∃ p, p ∈ db.payments ∧ (p.payment_id == pid.getD "") = true ∧ p.status = .completed ∧
      (cancelPayment cid db pid r cb).2
        = { payments := db.payments.map
              (fun q => if q.payment_id == pid.getD "" then { q with status := .cancelled } else q),
            cancellations := db.cancellations ++ [⟨cid, pid.getD "", r, cb⟩] } := by
  unfold cancelPayment
  dsimp only
  repeat' split
  all_goals try (left; rfl)
  rename_i p heq hst
  have hpred := List.find?_some heq
  have hmem := List.mem_of_find?_eq_some heq
  refine .inr ⟨p, hmem, hpred, hst, ?_⟩
  simp [updateWhere]

/-- C5 (confirmed): every exception thrown by `createPayment` rolls the
whole unit back — the committed store is exactly the one the call
started from — and the same error propagates to the caller; in
particular an adapter exception raised between the pending insert and
the commit propagates verbatim with no surviving row. -/
theorem c5_atomic_rollback :
    (∀ (env : CreateEnv) (db : DB) (o u a : Option JsNum) (m k : Option String)
        (c : Option CardPaymentResult) (msg : String),
        (createPayment env db o u a m k c).result = .thrown msg →
        (createPayment env db o u a m k c).db = db) ∧
    (∀ (env : CreateEnv) (db : DB) (o u a : Option JsNum) (m k : Option String) (e : String),
        isValidUserId o = true → isValidUserId u = true → isValidAmount a = true →
        isValidPaymentMethod m = true → (k.getD "" == "") = false →
        db.payments.any (fun q => q.idempotency_key == k.getD "") = false →
        db.payments.any (fun q => q.payment_id == env.newPaymentId) = false →
        env.gateway = .thrown e →
        createPayment env db o u a m k none = ⟨.thrown e, db, true⟩) := by
  refine ⟨createPayment_thrown_db, ?_⟩
  intro env db o u a m k e hv1 hv2 hv3 hv4 hv5 hf1 hf2 hgw
  rw [createPayment_run env db o u a m k none hv1 hv2 hv3 hv4 hv5 hf1 hf2]
  simp [runGateway, hgw]

/-- Witness for C5: rollback and verbatim propagation at a concrete
input whose gateway call throws. -/
theorem c5_witness :
    (createPayment envCreateGwDown db0 (some (.num 42)) (some (.num 7))
        (some (.num (mkRat 5998 100))) (some "card") (some keyA) none).db = db0 ∧
    createPayment envCreateGwDown db0 (some (.num 42)) (some (.num 7))
        (some (.num (mkRat 5998 100))) (some "card") (some keyA) none
      = ⟨.thrown "gateway unreachable", db0, true⟩ :=
  ⟨c5_atomic_rollback.1 envCreateGwDown db0 (some (.num 42)) (some (.num 7))
     (some (.num (mkRat 5998 100))) (some "card") (some keyA) none
     "gateway unreachable" (by decide),
   c5_atomic_rollback.2 envCreateGwDown db0 (some (.num 42)) (some (.num 7))
     (some (.num (mkRat 5998 100))) (some "card") (some keyA) "gateway unreachable"
     (by decide) (by decide) (by decide) (by decide) (by decide) (by decide) (by decide) rfl⟩

/-- C4 (corrected): when the pending insert hits the idempotency-key
uniqueness constraint, `createPayment` throws MySQL's duplicate-entry
message and rolls back, and the route's catch-block maps that message to
the generic 500 / PAYMENT_FAILED response — not to a distinct
DuplicateSubmission (409) condition; the uniqueness constraint itself
does guarantee at most one payment row per idempotency key across all
operations. -/
theorem c4_duplicate_key_generic_error :
    (∀ (env : CreateEnv) (db : DB) (o u a : Option JsNum) (m k : Option String)
        (c : Option CardPaymentResult),
        isValidUserId o = true → isValidUserId u = true → isValidAmount a = true →
        isValidPaymentMethod m = true → (k.getD "" == "") = false →
        db.payments.any (fun q => q.idempotency_key == k.getD "") = true →
        createPayment env db o u a m k c
          = ⟨.thrown ("Duplicate entry " ++ k.getD "" ++ " for key idempotency_key"),
             db, false⟩) ∧
    routeErrorMap ("Duplicate entry " ++ keyA ++ " for key idempotency_key")
      = ⟨500, "PAYMENT_FAILED", "Duplicate entry " ++ keyA ++ " for key idempotency_key"⟩ ∧
    (∀ db db' : DB, PaymentStep db db' → (keysOf db).Nodup → (keysOf db').Nodup) := by
  refine ⟨?_, by decide, ?_⟩
  · intro env db o u a m k c hv1 hv2 hv3 hv4 hv5 hdup
    simp [createPayment, hv1, hv2, hv3, hv4, hv5, insertPayment, pendingRow, hdup]
  · intro db db' hstep hnd
    cases hstep with
    | create env o u a m k c db =>
      rcases createPayment_db_cases env db o u a m k c
        with h | ⟨row, hpid, hkey, hstat, hfp, hfk, hdb⟩
      · rw [h]; exact hnd
      · have hnotin : row.idempotency_key ∉ keysOf db := by
          simp only [keysOf, List.mem_map]
          rintro ⟨q, hq, hqe⟩
          have hfq := (List.any_eq_false.mp hfk) q hq
          simp [hqe] at hfq
        have hkeq : keysOf (createPayment env db o u a m k c).db
            = keysOf db ++ [row.idempotency_key] := by
          rw [hdb]; simp [keysOf]
        rw [hkeq]
        refine List.Nodup.append hnd (List.nodup_singleton _) ?_
        intro x hx hmem
        rw [List.mem_singleton] at hmem
        subst hmem
        exact hnotin hx
    | cancel cid pid r cb db =>
      rcases cancelPayment_db_cases cid db pid r cb with h | ⟨p, hmem, hpid, hst, hdb⟩
      · rw [h]; exact hnd
      · have hkeq : keysOf (cancelPayment cid db pid r cb).2 = keysOf db := by
          rw [hdb]
          simp only [keysOf, List.map_map]
          apply List.map_congr_left
          intro q hq
          by_cases hcase : q.payment_id = pid.getD "" <;> simp [hcase]
        rw [hkeq]; exact hnd

/-- C4 counterexample: a request whose pending insert violates the
idempotency-key uniqueness constraint is answered 500 / PAYMENT_FAILED,
not with a distinct 409 DuplicateSubmission as the claim states. -/
theorem c4_counterexample :
    (handlePayment env1 stWithKey bodyA).status = 500 ∧
    (handlePayment env1 stWithKey bodyA).body.error_code = some "PAYMENT_FAILED" ∧
    (handlePayment env1 stWithKey bodyA).status ≠ 409 := by
  refine ⟨by decide, by decide, by decide⟩

/-- Witness for C4: the amended theorem applied at concrete inputs — the
duplicate-entry throw with rollback, and key uniqueness preserved by a
concrete step. -/
theorem c4_witness :
    createPayment envCreateOk dbWithKey (some (.num 42)) (some (.num 7))
        (some (.num (mkRat 5998 100))) (some "card") (some keyA) none
      = ⟨.thrown ("Duplicate entry " ++ keyA ++ " for key idempotency_key"),
         dbWithKey, false⟩ ∧
    (keysOf (createPayment envCreateOk dbWithKey (some (.num 42)) (some (.num 7))
        (some (.num (mkRat 5998 100))) (some "card") (some keyA) none).db).Nodup :=
  ⟨c4_duplicate_key_generic_error.1 envCreateOk dbWithKey (some (.num 42)) (some (.num 7))
     (some (.num (mkRat 5998 100))) (some "card") (some keyA) none
     (by decide) (by decide) (by decide) (by decide) (by decide) (by decide),
   c4_duplicate_key_generic_error.2.2 dbWithKey _
     (PaymentStep.create envCreateOk (some (.num 42)) (some (.num 7))
       (some (.num (mkRat 5998 100))) (some "card") (some keyA) none dbWithKey)
     (by decide)⟩

/-- C7 (confirmed): across every committed step of the exposed
operations, payment ids stay unique and a payment's status either stays
put or moves along an allowed transition (pending to completed, pending
to failed, completed to cancelled); in particular `failed` and
`cancelled` are terminal and nothing ever returns to `pending`. -/
theorem c7_status_transitions :
    ∀ db db' : DB, PaymentStep db db' → (idsOf db).Nodup →
      (idsOf db').Nodup ∧
      ∀ p ∈ db.payments, ∀ p' ∈ db'.payments, p.payment_id = p'.payment_id →
        (p'.status = p.status ∨ allowedTransition p.status p'.status) := by
  intro db db' hstep hnd
  have hinj : ∀ x ∈ db.payments, ∀ y ∈ db.payments, x.payment_id = y.payment_id → x = y :=
    List.inj_on_of_nodup_map hnd
  cases hstep with
  | create env o u a m k c db =>
    rcases createPayment_db_cases env db o u a m k c
      with h | ⟨row, hpid, hkey, hstat, hfp, hfk, hdb⟩
    · rw [h]
      exact ⟨hnd, fun p hp p' hp' hid => .inl (by rw [hinj p' hp' p hp hid.symm])⟩
    · have hnotin : row.payment_id ∉ idsOf db := by
        simp only [idsOf, List.mem_map]
        rintro ⟨q, hq, hqe⟩
        have hfq := (List.any_eq_false.mp hfp) q hq
        simp [hqe] at hfq
      constructor
      · have hkeq : idsOf (createPayment env db o u a m k c).db
            = idsOf db ++ [row.payment_id] := by
          rw [hdb]; simp [idsOf]
        rw [hkeq]
        refine List.Nodup.append hnd (List.nodup_singleton _) ?_
        intro x hx hmem
        rw [List.mem_singleton] at hmem
        subst hmem
        exact hnotin hx
      · intro p hp p' hp' hid
        rw [hdb] at hp'
        rcases List.mem_append.mp hp' with hp'' | hp''
        · exact .inl (by rw [hinj p' hp'' p hp hid.symm])
        · rw [List.mem_singleton] at hp''
          subst hp''
          exact absurd hid (by
            have hfq := (List.any_eq_false.mp hfp) p hp
            simpa using hfq)
  | cancel cid pid r cb db =>
    rcases cancelPayment_db_cases cid db pid r cb with h | ⟨q0, hq0, hq0id, hq0st, hdb⟩
    · rw [h]
      exact ⟨hnd, fun p hp p' hp' hid => .inl (by rw [hinj p' hp' p hp hid.symm])⟩
    · constructor
      · have hkeq : idsOf (cancelPayment cid db pid r cb).2 = idsOf db := by
          rw [hdb]
          simp only [idsOf, List.map_map]
          apply List.map_congr_left
          intro q hq
          by_cases hcase : q.payment_id = pid.getD "" <;> simp [hcase]
        rw [hkeq]; exact hnd
      · intro p hp p' hp'
        rw [hdb] at hp'
        simp only [List.mem_map] at hp'
        obtain ⟨q, hq, rfl⟩ := hp'
        intro hid
        by_cases hcase : q.payment_id = pid.getD ""
        · have hq0q : q = q0 := hinj q hq q0 hq0 (hcase.trans (eq_of_beq hq0id).symm)
          have hid' : p.payment_id = q.payment_id := by simpa [hcase] using hid
          have hpq : p = q := hinj p hp q hq hid'
          have hstatus : p.status = PayStatus.completed := by rw [hpq, hq0q, hq0st]
          refine .inr (.inr (.inr ⟨hstatus, ?_⟩))
          simp [hcase]
        · have hid' : p.payment_id = q.payment_id := by simpa [hcase] using hid
          have hpq : p = q := hinj p hp q hq hid'
          left
          simp [hcase, hpq]

/-- Witness for C7: the step theorem applied to a concrete cancellation
of a completed payment. -/
theorem c7_witness :
    (idsOf (cancelPayment "CAN_1" dbWithKey (some "PAY_0") (some "user request")
        (some (.num 7))).2).Nodup ∧
    ∀ p ∈ dbWithKey.payments,
      ∀ p' ∈ (cancelPayment "CAN_1" dbWithKey (some "PAY_0") (some "user request")
          (some (.num 7))).2.payments,
        p.payment_id = p'.payment_id →
        (p'.status = p.status ∨ allowedTransition p.status p'.status) :=
  c7_status_transitions dbWithKey _
    (PaymentStep.cancel "CAN_1" (some "PAY_0") (some "user request") (some (.num 7)) dbWithKey)
    (by decide)

/-- C6 (confirmed): under the table constraints (unique, non-empty
payment ids), `cancelPayment` succeeds iff a payment with the id exists
in status `completed`; on success it appends exactly one cancellation
row and flips that payment to `cancelled` (both effects in one unit), in
any other case it throws leaving the store untouched, and a second cancel
of the same payment always throws the invalid-state error. -/
theorem c6_cancel_iff_completed (cid : String) (db : DB) (pid : String)
    (r : Option String) (cb : Option JsNum)
    (hnd : (idsOf db).Nodup)
    (hne : ∀ p ∈ db.payments, p.payment_id ≠ "") :
    ((∃ p ∈ db.payments, p.payment_id = pid ∧ p.status = .completed) →
       cancelPayment cid db (some pid) r cb
         = (.ok ⟨cid, .cancelled⟩,
            { payments := db.payments.map
                (fun q => if q.payment_id == pid then { q with status := .cancelled } else q),
              cancellations := db.cancellations ++ [⟨cid, pid, r, cb⟩] })) ∧
    ((¬ ∃ p ∈ db.payments, p.payment_id = pid ∧ p.status = .completed) →
       ∃ msg, cancelPayment cid db (some pid) r cb = (.thrown msg, db)) ∧
    ((∃ p ∈ db.payments, p.payment_id = pid ∧ p.status = .completed) →
       ∀ (cid2 : String) (r2 : Option String) (cb2 : Option JsNum),
         cancelPayment cid2 ((cancelPayment cid db (some pid) r cb).2) (some pid) r2 cb2
           = (.thrown "Only completed payments can be cancelled",
              (cancelPayment cid db (some pid) r cb).2)) := by
  have hinj : ∀ x ∈ db.payments, ∀ y ∈ db.payments, x.payment_id = y.payment_id → x = y :=
    List.inj_on_of_nodup_map hnd
  have hfind_of : ∀ p ∈ db.payments, p.payment_id = pid →
      db.payments.find? (fun q => q.payment_id == pid) = some p := by
    intro p hp hpid
    cases hf : db.payments.find? (fun q => q.payment_id == pid) with
    | none =>
      exfalso
      have hq := List.find?_eq_none.mp hf p hp
      simp [hpid] at hq
    | some q =>
      have hqm := List.mem_of_find?_eq_some hf
      have hqpred := List.find?_some hf
      have : q = p := hinj q hqm p hp (by rw [eq_of_beq hqpred, hpid])
      rw [this]
  refine ⟨?_, ?_, ?_⟩
  · rintro ⟨p, hp, hpid, hst⟩
    have hpe : ¬ (pid = "") := by rw [← hpid]; exact hne p hp
    have hfind := hfind_of p hp hpid
    simp [cancelPayment, hpe, hfind, hst, updateWhere]
  · intro hno
    by_cases hpe : pid = ""
    · exact ⟨"Invalid payment_id", by simp [cancelPayment, hpe]⟩
    · cases hf : db.payments.find? (fun q => q.payment_id == pid) with
      | none => exact ⟨"Payment not found", by simp [cancelPayment, hpe, hf]⟩
      | some q =>
        have hqm := List.mem_of_find?_eq_some hf
        have hqpred := List.find?_some hf
        have hqst : ¬ (q.status = PayStatus.completed) := by
          intro hc
          exact hno ⟨q, hqm, eq_of_beq hqpred, hc⟩
        exact ⟨"Only completed payments can be cancelled",
          by simp [cancelPayment, hpe, hf, hqst]⟩
  · rintro ⟨p, hp, hpid, hst⟩ cid2 r2 cb2
    have hpe : ¬ (pid = "") := by rw [← hpid]; exact hne p hp
    have hfind := hfind_of p hp hpid
    have ha : cancelPayment cid db (some pid) r cb
        = (.ok ⟨cid, .cancelled⟩,
           { payments := db.payments.map
               (fun q => if q.payment_id == pid then { q with status := .cancelled } else q),
             cancellations := db.cancellations ++ [⟨cid, pid, r, cb⟩] }) := by
      simp [cancelPayment, hpe, hfind, hst, updateWhere]
    rw [ha]
    have hfind2 : (db.payments.map
        (fun q => if q.payment_id = pid then { q with status := .cancelled } else q)).find?
          (fun q => q.payment_id == pid)
        = some { p with status := .cancelled } := by
      rw [List.find?_map]
      have hsame : ((fun (q : Payment) => q.payment_id == pid) ∘
          (fun q => if q.payment_id = pid then { q with status := PayStatus.cancelled } else q))
          = (fun (q : Payment) => q.payment_id == pid) := by
        funext q
        by_cases hc : q.payment_id = pid <;> simp [hc]
      rw [hsame, hfind]
      simp [hpid]
    simp [cancelPayment, hpe, hfind2, -List.find?_map]

/-- Witness for C6: concrete cancellation of a completed payment and the
failing second cancellation. -/
theorem c6_witness :
    cancelPayment "CAN_1" dbWithKey (some "PAY_0") (some "user request") (some (.num 7))
      = (.ok ⟨"CAN_1", .cancelled⟩,
         { payments := dbWithKey.payments.map
             (fun q => if q.payment_id == "PAY_0" then { q with status := .cancelled } else q),
           cancellations := dbWithKey.cancellations
             ++ [⟨"CAN_1", "PAY_0", some "user request", some (.num 7)⟩] }) ∧
    cancelPayment "CAN_2"
        ((cancelPayment "CAN_1" dbWithKey (some "PAY_0") (some "user request")
            (some (.num 7))).2) (some "PAY_0") none none
      = (.thrown "Only completed payments can be cancelled",
         (cancelPayment "CAN_1" dbWithKey (some "PAY_0") (some "user request")
            (some (.num 7))).2) :=
  ⟨(c6_cancel_iff_completed "CAN_1" dbWithKey "PAY_0" (some "user request") (some (.num 7))
      (by decide) (by decide)).1 ⟨payCompleted, by decide, rfl, rfl⟩,
   (c6_cancel_iff_completed "CAN_1" dbWithKey "PAY_0" (some "user request") (some (.num 7))
      (by decide) (by decide)).2.2 ⟨payCompleted, by decide, rfl, rfl⟩ "CAN_2" none none⟩

/-- With both middlewares falling through, the route is its handler. -/
theorem handlePayment_proceed (env : CallEnv) (st : SysState) (body : ReqBody)
    (hv : validatePaymentCheck body = none)
    (hidem : checkIdempotency env st.ledger body = .proceed) :
    handlePayment env st body = handlerCore env st body := by
  simp [handlePayment, hv, hidem]

/-- Handler reduction when the order is pending, the lock store is up
and no live lock exists: the lock is taken and processing runs. -/
theorem handlerCore_locked (env : CallEnv) (st : SysState) (body : ReqBody)
    (order : OrderInfo) (horder : env.order = some order)
    (hstat : order.status = "pending") (hredis : env.redisUp = true)
    (hnolock : liveLock st.locks (lockKeyOf body) env.now = false) :
    handlerCore env st body
      = processPayment env
          { st with locks := setLock st.locks (lockKeyOf body) (env.now + 30) }
          body order true := by
  simp [handlerCore, horder, hstat, hredis, hnolock]

/-- Handler reduction when the lock store is unreachable: fail-open, the
processing runs without a lock. -/
theorem handlerCore_redis_down (env : CallEnv) (st : SysState) (body : ReqBody)
    (order : OrderInfo) (horder : env.order = some order)
    (hstat : order.status = "pending") (hredis : env.redisUp = false) :
    handlerCore env st body = processPayment env st body order false := by
  simp [handlerCore, horder, hstat, hredis]

/-- Handler reduction when a live lock exists: the 429 response, nothing
touched. -/
theorem handlerCore_busy (env : CallEnv) (st : SysState) (body : ReqBody)
    (order : OrderInfo) (horder : env.order = some order)
    (hstat : order.status = "pending") (hredis : env.redisUp = true)
    (hlive : liveLock st.locks (lockKeyOf body) env.now = true) :
    handlerCore env st body
      = ⟨429, errorBody "Payment is already being processed for this order"
          "PAYMENT_IN_PROGRESS", st, false⟩ := by
  simp [handlerCore, horder, hstat, hredis, hlive]

/-- Processing reduction when `createPayment` throws: the catch block
answers via the error map and performs no lock release. -/
theorem processPayment_thrown (env : CallEnv) (st : SysState) (body : ReqBody)
    (order : OrderInfo) (hasLock : Bool) (msg : String)
    (h : (createPayment env.create st.db (some body.order_id) (some order.user_id)
        (some order.total_price) (some body.payment_method) (some body.idempotency_key)
        none).result = .thrown msg) :
    processPayment env st body order hasLock
      = ⟨(routeErrorMap msg).statusCode,
          errorBody (routeErrorMap msg).message (routeErrorMap msg).error_code, st,
          (createPayment env.create st.db (some body.order_id) (some order.user_id)
            (some order.total_price) (some body.payment_method) (some body.idempotency_key)
            none).gatewayInvoked⟩ := by
  have hdb := createPayment_thrown_db env.create st.db (some body.order_id)
    (some order.user_id) (some order.total_price) (some body.payment_method)
    (some body.idempotency_key) none msg h
  simp [processPayment, h, hdb]

/-- Processing reduction when `createPayment` resolves: the response is
built, stored in the ledger when reachable, and the lock released. -/
theorem processPayment_ok (env : CallEnv) (st : SysState) (body : ReqBody)
    (order : OrderInfo) (hasLock : Bool) (r : CreateResult)
    (h : (createPayment env.create st.db (some body.order_id) (some order.user_id)
        (some order.total_price) (some body.payment_method) (some body.idempotency_key)
        none).result = .ok r) :
    processPayment env st body order hasLock
      = ⟨if r.status = .completed then 200 else 422, responseDataOf r,
          ⟨(createPayment env.create st.db (some body.order_id) (some order.user_id)
              (some order.total_price) (some body.payment_method)
              (some body.idempotency_key) none).db,
            if env.ledgerStoreUp then
              storeIdempotencyKey st.ledger body.idempotency_key (storeRequestData body)
                (responseDataOf r) env.now
            else st.ledger,
            if hasLock then delLock st.locks (lockKeyOf body) else st.locks⟩,
          (createPayment env.create st.db (some body.order_id) (some order.user_id)
            (some order.total_price) (some body.payment_method)
            (some body.idempotency_key) none).gatewayInvoked⟩ := by
  simp [processPayment, h]

/-- `processPayment_ok` specialised to a reachable ledger write leg. -/
theorem processPayment_ok_store (env : CallEnv) (st : SysState) (body : ReqBody)
    (order : OrderInfo) (hasLock : Bool) (r : CreateResult)
    (h : (createPayment env.create st.db (some body.order_id) (some order.user_id)
        (some order.total_price) (some body.payment_method) (some body.idempotency_key)
        none).result = .ok r)
    (hstore : env.ledgerStoreUp = true) :
    processPayment env st body order hasLock
      = ⟨if r.status = .completed then 200 else 422, responseDataOf r,
          ⟨(createPayment env.create st.db (some body.order_id) (some order.user_id)
              (some order.total_price) (some body.payment_method)
              (some body.idempotency_key) none).db,
            storeIdempotencyKey st.ledger body.idempotency_key (storeRequestData body)
              (responseDataOf r) env.now,
            if hasLock then delLock st.locks (lockKeyOf body) else st.locks⟩,
          (createPayment env.create st.db (some body.order_id) (some order.user_id)
            (some order.total_price) (some body.payment_method)
            (some body.idempotency_key) none).gatewayInvoked⟩ := by
  simp [processPayment, h, hstore]

/-- The idempotency check falls through when the service is
unreachable. -/
theorem checkIdempotency_down (env : CallEnv) (ledger : List LedgerRecord)
    (body : ReqBody) (h : env.ledgerLookupUp = false) :
    checkIdempotency env ledger body = .proceed := by
  by_cases hk : body.idempotency_key = "" <;> simp [checkIdempotency, h, hk]

/-- The idempotency check falls through when no non-expired record
exists for the key. -/
theorem checkIdempotency_miss (env : CallEnv) (ledger : List LedgerRecord)
    (body : ReqBody)
    (h : getIdempotencyRecord ledger body.idempotency_key env.now = none) :
    checkIdempotency env ledger body = .proceed := by
  by_cases hk : body.idempotency_key = "" <;>
    simp [checkIdempotency, checkIdempotencyKey, h, hk]

/-- The idempotency check replays the stored response on a fingerprint
match. -/
theorem checkIdempotency_replay (env : CallEnv) (ledger : List LedgerRecord)
    (body : ReqBody) (rec : LedgerRecord)
    (hup : env.ledgerLookupUp = true) (hk : body.idempotency_key ≠ "")
    (hrec : getIdempotencyRecord ledger body.idempotency_key env.now = some rec)
    (hfp : rec.request_hash = hashRequestData (checkRequestData body)) :
    checkIdempotency env ledger body = .replayed rec.response_data := by
  simp [checkIdempotency, hup, hk, checkIdempotencyKey, validateRequestData,
    getIdempotencyResult, hrec, hfp]

/-- The idempotency check rejects on a fingerprint mismatch. -/
theorem checkIdempotency_conflict (env : CallEnv) (ledger : List LedgerRecord)
    (body : ReqBody) (rec : LedgerRecord)
    (hup : env.ledgerLookupUp = true) (hk : body.idempotency_key ≠ "")
    (hrec : getIdempotencyRecord ledger body.idempotency_key env.now = some rec)
    (hfp : rec.request_hash ≠ hashRequestData (checkRequestData body)) :
    checkIdempotency env ledger body = .conflict := by
  simp [checkIdempotency, hup, hk, checkIdempotencyKey, validateRequestData,
    getIdempotencyResult, hrec, hfp]

/-- A first-time ledger write appends the record with a 24 hour
expiry. -/
theorem storeIdempotencyKey_fresh (ledger : List LedgerRecord) (key : String)
    (rd : RequestData) (resp : RespBody) (now : Nat)
    (h : ledger.any (fun rec => rec.key == key) = false) :
    storeIdempotencyKey ledger key rd resp now
      = ledger ++ [⟨key, hashRequestData rd, resp, now + 86400⟩] := by
  simp [storeIdempotencyKey, h]

/-- `find?` skips a prefix in which it finds nothing. -/
theorem find?_append_of_none {α : Type} (p : α → Bool) (l1 l2 : List α)
    (h : l1.find? p = none) : (l1 ++ l2).find? p = l2.find? p := by
  induction l1 with
  | nil => simp
  | cons a as ih =>
    rw [List.cons_append]
    cases hpa : p a
    · simp only [List.find?_cons, hpa] at h ⊢
      exact ih h
    · simp [List.find?_cons, hpa] at h

/-- Looking the key up right after its first write finds the fresh
record while it has not expired. -/
theorem getIdempotencyRecord_append_self (ledger : List LedgerRecord)
    (rec : LedgerRecord) (now : Nat)
    (hmiss : ledger.any (fun q => q.key == rec.key) = false)
    (hexp : now < rec.expires_at) :
    getIdempotencyRecord (ledger ++ [rec]) rec.key now = some rec := by
  unfold getIdempotencyRecord
  rw [find?_append_of_none]
  · simp [List.find?_cons, hexp]
  · apply List.find?_eq_none.mpr
    intro q hq
    have := (List.any_eq_false.mp hmiss) q hq
    simp_all

/-- A request body passing `validatePaymentRequest` carries a non-empty
idempotency key. -/
theorem validate_key_ne (body : ReqBody) (hv : validatePaymentCheck body = none) :
    body.idempotency_key ≠ "" := by
  intro he
  unfold validatePaymentCheck at hv
  split at hv
  · simp at hv
  · split at hv
    · simp at hv
    · simp [he] at hv

/-- Liveness of a freshly set lock entry is exactly its TTL window. -/
theorem liveLock_setLock (locks : List (String × Nat)) (k : String) (exp now2 : Nat) :
    liveLock (setLock locks k exp) k now2 = decide (now2 < exp) := by
  simp only [liveLock, setLock, List.any_append]
  have hleft : (locks.filter (fun l => !(l.1 == k))).any
      (fun l => l.1 == k && decide (now2 < l.2)) = false := by
    apply List.any_eq_false.mpr
    intro l hl
    have hlk := (List.mem_filter.mp hl).2
    simp at hlk
    simp [hlk]
  rw [hleft]
  simp

/-- C10 (confirmed): when the submission lock was acquired and
`createPayment` throws, the error path releases nothing: the lock entry
for the order stays with its 30 second expiry, the store and ledger are
untouched, a fresh lock entry is live exactly until its TTL instant, and
a retry for the same order that meets a live lock is answered 429. -/
theorem c10_lock_kept_on_error :
    ∀ (env : CallEnv) (st : SysState) (body : ReqBody) (order : OrderInfo) (msg : String),
      validatePaymentCheck body = none →
      checkIdempotency env st.ledger body = .proceed →
      env.order = some order → order.status = "pending" →
      env.redisUp = true →
      liveLock st.locks (lockKeyOf body) env.now = false →
      (createPayment env.create st.db (some body.order_id) (some order.user_id)
          (some order.total_price) (some body.payment_method) (some body.idempotency_key)
          none).result = .thrown msg →
      ((handlePayment env st body).state.locks
          = setLock st.locks (lockKeyOf body) (env.now + 30) ∧
       (handlePayment env st body).status = (routeErrorMap msg).statusCode ∧
       (handlePayment env st body).state.db = st.db ∧
       (handlePayment env st body).state.ledger = st.ledger ∧
       (∀ now2 : Nat, liveLock (setLock st.locks (lockKeyOf body) (env.now + 30))
           (lockKeyOf body) now2 = decide (now2 < env.now + 30)) ∧
       (∀ (env2 : CallEnv) (st2 : SysState),
          checkIdempotency env2 st2.ledger body = .proceed →
          env2.order = some order → env2.redisUp = true →
          liveLock st2.locks (lockKeyOf body) env2.now = true →
          handlePayment env2 st2 body
            = ⟨429, errorBody "Payment is already being processed for this order"
                "PAYMENT_IN_PROGRESS", st2, false⟩)) := by
  intro env st body order msg hv hidem horder hstat hredis hnolock hthrow
  have h1 : handlePayment env st body
      = processPayment env
          { st with locks := setLock st.locks (lockKeyOf body) (env.now + 30) }
          body order true :=
    (handlePayment_proceed env st body hv hidem).trans
      (handlerCore_locked env st body order horder hstat hredis hnolock)
  have h2 := processPayment_thrown env
    { st with locks := setLock st.locks (lockKeyOf body) (env.now + 30) }
    body order true msg hthrow
  rw [h1, h2]
  refine ⟨rfl, rfl, rfl, rfl, liveLock_setLock st.locks (lockKeyOf body) (env.now + 30), ?_⟩
  intro env2 st2 hidem2 horder2 hredis2 hlive2
  exact (handlePayment_proceed env2 st2 body hv hidem2).trans
    (handlerCore_busy env2 st2 body order horder2 hstat hredis2 hlive2)

/-- Witness for C10: a concrete failed submission leaves its lock, and
the concrete retry 10 seconds later is answered 429. -/
theorem c10_witness :
    (handlePayment envGwDownCall st0 bodyA).state.locks
      = setLock st0.locks (lockKeyOf bodyA) (0 + 30) ∧
    handlePayment env2retry ((handlePayment envGwDownCall st0 bodyA).state) bodyA
      = ⟨429, errorBody "Payment is already being processed for this order"
          "PAYMENT_IN_PROGRESS", (handlePayment envGwDownCall st0 bodyA).state, false⟩ :=
  ⟨(c10_lock_kept_on_error envGwDownCall st0 bodyA orderA "gateway unreachable"
      (by decide) (by decide) rfl rfl rfl (by decide) (by decide)).1,
   (c10_lock_kept_on_error envGwDownCall st0 bodyA orderA "gateway unreachable"
      (by decide) (by decide) rfl rfl rfl (by decide) (by decide)).2.2.2.2.2
     env2retry ((handlePayment envGwDownCall st0 bodyA).state)
     (by decide) rfl rfl (by decide)⟩

/-- C8 (confirmed): infrastructure failures around deduplication and
locking never block processing — an unreachable idempotency service
makes the check fall through (no replay, no conflict, regardless of
ledger content), the route then runs the plain handler; an unreachable
lock store is fail-open (processing runs without a lock, no 429); and a
failed ledger write after the payment changes neither the response nor
the store nor the locks, only the ledger. -/
theorem c8_infra_fail_open :
    (∀ (env : CallEnv) (ledger : List LedgerRecord) (body : ReqBody),
       env.ledgerLookupUp = false → checkIdempotency env ledger body = .proceed) ∧
    (∀ (env : CallEnv) (st : SysState) (body : ReqBody),
       validatePaymentCheck body = none → env.ledgerLookupUp = false →
       handlePayment env st body = handlerCore env st body) ∧
    (∀ (env : CallEnv) (st : SysState) (body : ReqBody) (order : OrderInfo),
       validatePaymentCheck body = none →
       checkIdempotency env st.ledger body = .proceed →
       env.order = some order → order.status = "pending" → env.redisUp = false →
       handlePayment env st body = processPayment env st body order false) ∧
    (∀ (env env' : CallEnv) (st : SysState) (body : ReqBody) (order : OrderInfo)
        (hasLock : Bool),
       env'.create = env.create → env'.now = env.now → env'.ledgerStoreUp = false →
       (processPayment env' st body order hasLock).status
           = (processPayment env st body order hasLock).status ∧
       (processPayment env' st body order hasLock).body
           = (processPayment env st body order hasLock).body ∧
       (processPayment env' st body order hasLock).state.db
           = (processPayment env st body order hasLock).state.db ∧
       (processPayment env' st body order hasLock).state.locks
           = (processPayment env st body order hasLock).state.locks) := by
  refine ⟨checkIdempotency_down, ?_, ?_, ?_⟩
  · intro env st body hv hdown
    exact handlePayment_proceed env st body hv (checkIdempotency_down env st.ledger body hdown)
  · intro env st body order hv hidem horder hstat hredis
    exact (handlePayment_proceed env st body hv hidem).trans
      (handlerCore_redis_down env st body order horder hstat hredis)
  · intro env env' st body order hasLock hc hnow hstore
    cases hres : (createPayment env.create st.db (some body.order_id) (some order.user_id)
        (some order.total_price) (some body.payment_method) (some body.idempotency_key)
        none).result with
    | thrown m =>
      have hres' : (createPayment env'.create st.db (some body.order_id) (some order.user_id)
          (some order.total_price) (some body.payment_method) (some body.idempotency_key)
          none).result = .thrown m := by rw [hc]; exact hres
      rw [processPayment_thrown env st body order hasLock m hres,
          processPayment_thrown env' st body order hasLock m hres']
      exact ⟨rfl, rfl, rfl, rfl⟩
    | ok r =>
      have hres' : (createPayment env'.create st.db (some body.order_id) (some order.user_id)
          (some order.total_price) (some body.payment_method) (some body.idempotency_key)
          none).result = .ok r := by rw [hc]; exact hres
      rw [processPayment_ok env st body order hasLock r hres,
          processPayment_ok env' st body order hasLock r hres']
      exact ⟨rfl, rfl, by rw [hc], rfl⟩

/-- Witness for C8: the fail-open theorem applied at concrete inputs —
the check falls through on a down service even with a matching record
stored, the route runs the handler, an unreachable lock store still
processes, and a down ledger write changes nothing but the ledger. -/
theorem c8_witness :
    checkIdempotency envLedgerDown [recA] bodyA = .proceed ∧
    handlePayment envLedgerDown stLedgerA bodyA = handlerCore envLedgerDown stLedgerA bodyA ∧
    handlePayment envLedgerDown stLedgerA bodyA
      = processPayment envLedgerDown stLedgerA bodyA orderA false ∧
    (processPayment envStoreDown st0 bodyA orderA true).status
      = (processPayment env1 st0 bodyA orderA true).status ∧
    (processPayment envStoreDown st0 bodyA orderA true).body
      = (processPayment env1 st0 bodyA orderA true).body ∧
    (processPayment envStoreDown st0 bodyA orderA true).state.db
      = (processPayment env1 st0 bodyA orderA true).state.db ∧
    (processPayment envStoreDown st0 bodyA orderA true).state.locks
      = (processPayment env1 st0 bodyA orderA true).state.locks := by
  refine ⟨c8_infra_fail_open.1 envLedgerDown [recA] bodyA rfl,
    c8_infra_fail_open.2.1 envLedgerDown stLedgerA bodyA (by decide) rfl,
    c8_infra_fail_open.2.2.1 envLedgerDown stLedgerA bodyA orderA (by decide) (by decide)
      rfl rfl rfl, ?_⟩
  have h := c8_infra_fail_open.2.2.2 env1 envStoreDown st0 bodyA orderA true rfl rfl rfl
  exact ⟨h.1, h.2.1, h.2.2.1, h.2.2.2⟩

/-- C2 (corrected): the stored fingerprint covers exactly the order id
and the payment method — the amount is not part of it — and a second
call presenting the same key with a different order id or method is
rejected 409 (DUPLICATE_REQUEST) with the system state untouched: the
record is not overwritten and the original payment is unaffected. -/
theorem c2_fingerprint_and_conflict :
    (∀ body : ReqBody, hashRequestData (storeRequestData body)
        = [("order_id", FVal.jnum body.order_id),
           ("payment_method", FVal.jstr body.payment_method)]) ∧
    (∀ (env : CallEnv) (st : SysState) (body body0 : ReqBody) (rec : LedgerRecord),
       validatePaymentCheck body = none →
       env.ledgerLookupUp = true →
       getIdempotencyRecord st.ledger body.idempotency_key env.now = some rec →
       rec.request_hash = hashRequestData (checkRequestData body0) →
       (body.order_id ≠ body0.order_id ∨ body.payment_method ≠ body0.payment_method) →
       handlePayment env st body
         = ⟨409, errorBody "Idempotency key conflict: same key used with different request data"
             "DUPLICATE_REQUEST", st, false⟩) := by
  refine ⟨fun body => rfl, ?_⟩
  intro env st body body0 rec hv hup hrec hfp hdiff
  have hk := validate_key_ne body hv
  have hneq : rec.request_hash ≠ hashRequestData (checkRequestData body) := by
    rw [hfp]
    intro he
    simp only [hashRequestData, checkRequestData, List.cons_append, List.nil_append,
      List.cons.injEq, Prod.mk.injEq, FVal.jnum.injEq, FVal.jstr.injEq] at he
    rcases hdiff with hd | hd
    · exact hd he.1.2.symm
    · exact hd he.2.1.2.symm
  simp [handlePayment, hv, checkIdempotency_conflict env st.ledger body rec hup hk hrec hneq]

/-- C2 counterexample: the amount is outside the fingerprint, so reusing
the key after the order total changed from 59.98 to 200 is not rejected
409 — the stored response is replayed with 200. -/
theorem c2_counterexample :
    orderA.total_price ≠ orderB.total_price ∧
    (handlePayment envAmt2 (handlePayment env1 st0 bodyA).state bodyA).status = 200 ∧
    (handlePayment envAmt2 (handlePayment env1 st0 bodyA).state bodyA).status ≠ 409 := by
  refine ⟨by decide, by decide, by decide⟩

/-- Witness for C2: the fingerprint shape at `bodyA`, and the 409
conflict for a concrete key reuse with a different order id. -/
theorem c2_witness :
    hashRequestData (storeRequestData bodyA)
      = [("order_id", FVal.jnum bodyA.order_id),
         ("payment_method", FVal.jstr bodyA.payment_method)] ∧
    handlePayment env1 stLedgerA bodyB
      = ⟨409, errorBody "Idempotency key conflict: same key used with different request data"
          "DUPLICATE_REQUEST", stLedgerA, false⟩ :=
  ⟨c2_fingerprint_and_conflict.1 bodyA,
   c2_fingerprint_and_conflict.2 env1 stLedgerA bodyB bodyA recA (by decide) rfl rfl rfl
     (.inl (by decide))⟩

/-- C3 (corrected): a retried submission with the same key and identical
fields, arriving after the first produced a terminal outcome and before
its record expires, is answered with the first call's stored body and
HTTP 200 — the gateway is not invoked again, no second payment is
created and the state is untouched.  (The replay status is always 200,
which equals the first call's status only when the first payment
completed; a failed first payment was answered 422.) -/
theorem c3_replay_returns_original_body :
    ∀ (env env2 : CallEnv) (st : SysState) (body : ReqBody) (order : OrderInfo)
      (r : CreateResult),
      validatePaymentCheck body = none →
      env.ledgerLookupUp = true → env.ledgerStoreUp = true →
      st.ledger.any (fun q => q.key == body.idempotency_key) = false →
      env.order = some order → order.status = "pending" →
      env.redisUp = true → liveLock st.locks (lockKeyOf body) env.now = false →
      (createPayment env.create st.db (some body.order_id) (some order.user_id)
          (some order.total_price) (some body.payment_method) (some body.idempotency_key)
          none).result = .ok r →
      env2.ledgerLookupUp = true → env2.now < env.now + 86400 →
      handlePayment env2 (handlePayment env st body).state body
        = ⟨200, (handlePayment env st body).body, (handlePayment env st body).state, false⟩ ∧
      (handlePayment env st body).status = (if r.status = .completed then 200 else 422) ∧
      (handlePayment env st body).body = responseDataOf r := by
  intro env env2 st body order r hv hlk hstore hfresh horder hstat hredis hnolock hok hlk2 hnow2
  have hk := validate_key_ne body hv
  have hmiss : getIdempotencyRecord st.ledger body.idempotency_key env.now = none := by
    apply List.find?_eq_none.mpr
    intro q hq
    have := List.any_eq_false.mp hfresh q hq
    simp_all
  have h1 : handlePayment env st body
      = processPayment env
          { st with locks := setLock st.locks (lockKeyOf body) (env.now + 30) }
          body order true :=
    (handlePayment_proceed env st body hv (checkIdempotency_miss env st.ledger body hmiss)).trans
      (handlerCore_locked env st body order horder hstat hredis hnolock)
  have h2 := processPayment_ok_store env
    { st with locks := setLock st.locks (lockKeyOf body) (env.now + 30) }
    body order true r hok hstore
  have hrec : getIdempotencyRecord
      (st.ledger ++ [⟨body.idempotency_key, hashRequestData (storeRequestData body),
        responseDataOf r, env.now + 86400⟩]) body.idempotency_key env2.now
      = some ⟨body.idempotency_key, hashRequestData (storeRequestData body),
        responseDataOf r, env.now + 86400⟩ :=
    getIdempotencyRecord_append_self st.ledger
      ⟨body.idempotency_key, hashRequestData (storeRequestData body),
        responseDataOf r, env.now + 86400⟩ env2.now hfresh hnow2
  have hsf := storeIdempotencyKey_fresh st.ledger body.idempotency_key
    (storeRequestData body) (responseDataOf r) env.now hfresh
  rw [h1, h2]
  dsimp only
  rw [hsf]
  refine ⟨?_, rfl, rfl⟩
  have hreplay := checkIdempotency_replay env2
    (st.ledger ++ [⟨body.idempotency_key, hashRequestData (storeRequestData body),
      responseDataOf r, env.now + 86400⟩]) body
    ⟨body.idempotency_key, hashRequestData (storeRequestData body),
      responseDataOf r, env.now + 86400⟩ hlk2 hk hrec rfl
  simp [handlePayment, hv, hreplay]

/-- C3 counterexample: a first call whose gateway declined is answered
422, and its replay is answered 200 with the same body — the claim's
"same status" fails on the failed-payment case. -/
theorem c3_counterexample :
    (handlePayment ⟨0, true, true, true, some orderA, envCreateDecline⟩ st0 bodyA).status
      = 422 ∧
    (handlePayment ⟨40, true, true, true, some orderA, envCreateOk⟩
        (handlePayment ⟨0, true, true, true, some orderA, envCreateDecline⟩ st0 bodyA).state
        bodyA).status = 200 ∧
    (handlePayment ⟨40, true, true, true, some orderA, envCreateOk⟩
        (handlePayment ⟨0, true, true, true, some orderA, envCreateDecline⟩ st0 bodyA).state
        bodyA).body
      = (handlePayment ⟨0, true, true, true, some orderA, envCreateDecline⟩ st0 bodyA).body ∧
    (200 : Nat) ≠ 422 := by
  refine ⟨by decide, by decide, by decide, by decide⟩

/-- Witness for C3: the amended replay theorem applied to the concrete
completed first call and its retry 40 seconds later. -/
theorem c3_witness :
    handlePayment ⟨40, true, true, true, some orderA, envCreateOk⟩
        (handlePayment env1 st0 bodyA).state bodyA
      = ⟨200, (handlePayment env1 st0 bodyA).body, (handlePayment env1 st0 bodyA).state,
          false⟩ ∧
    (handlePayment env1 st0 bodyA).body
      = responseDataOf ⟨"PAY_1", .completed, some "TXN_1", none⟩ :=
  ⟨(c3_replay_returns_original_body env1 ⟨40, true, true, true, some orderA, envCreateOk⟩
      st0 bodyA orderA ⟨"PAY_1", .completed, some "TXN_1", none⟩
      (by decide) rfl rfl (by decide) rfl rfl rfl (by decide) (by decide) rfl
      (by decide)).1,
   (c3_replay_returns_original_body env1 ⟨40, true, true, true, some orderA, envCreateOk⟩
      st0 bodyA orderA ⟨"PAY_1", .completed, some "TXN_1", none⟩
      (by decide) rfl rfl (by decide) rfl rfl rfl (by decide) (by decide) rfl
      (by decide)).2.2⟩

end Blossom
